import Mathlib

/-!
# Verification of `windows-service-detector-rs`

A shallow embedding of `src/lib.rs`, which detects whether the current
process runs as a Windows Service by (a) resolving the parent process id
via `NtQueryInformationProcess`, (b) enumerating all processes via
`NtQuerySystemInformation` with a two-pass resize-retry buffer protocol,
(c) walking the returned record chain to locate the parent, and
(d) classifying the located record (`SessionId == 0 && name == "services.exe"`).

The two OS introspection calls are modelled by an oracle (`OsModel`).
Machine integers (`u32`, `usize`, NTSTATUS codes) are modelled as `Nat`;
none of the arithmetic in the source can overflow-wrap in a way that the
claims depend on.  The snapshot buffer is modelled at record granularity:
a length in bytes plus a total function giving, for every byte offset, the
`SYSTEM_PROCESS_INFORMATION` record that dereferencing the buffer at that
offset would read (dereferencing arbitrary bytes always yields *some*
field values, hence a total function; an all-zero byte region decodes to
the all-zero record with a null `ImageName.Buffer`).
-/

namespace WinSvc

/-- `NTSTATUS STATUS_INFO_LENGTH_MISMATCH` (0xC0000004), the "buffer too
small, required size reported" signal that `lib.rs` retries on.  The source
compares `e.code() == STATUS_INFO_LENGTH_MISMATCH.into()`; the
NTSTATUS→HRESULT conversion is injective, so we compare raw NTSTATUS values. -/
def STATUS_INFO_LENGTH_MISMATCH : Nat := 0xC0000004

/-- `NTSTATUS STATUS_BUFFER_TOO_SMALL` (0xC0000023), raised by
`STATUS_BUFFER_TOO_SMALL.ok()?` when `return_len == 0` after the loop. -/
def STATUS_BUFFER_TOO_SMALL : Nat := 0xC0000023

/-- Unicode scalar values of the literal `"services.exe"` (all ASCII).
Strings are compared by their scalar-value sequences, which makes the
comparison exact and case-sensitive like Rust `String` equality. -/
def SERVICES_EXE : List Nat := [115, 101, 114, 118, 105, 99, 101, 115, 46, 101, 120, 101]

/-- Unicode scalar values of the placeholder literal `"<null>"` substituted
when `proc.ImageName.Buffer.is_null()`. -/
def NULL_PLACEHOLDER : List Nat := [60, 110, 117, 108, 108, 62]

/-- Scalar values of a Lean string, for tying the constants above to the
Rust string literals they embed. -/
def strCodes (s : String) : List Nat := s.data.map Char.toNat

/-- One decoded `SYSTEM_PROCESS_INFORMATION` record, at the granularity the
traversal in `lib.rs` reads it: `NextEntryOffset` (u32), `UniqueProcessId`
(HANDLE cast `as usize`), `SessionId` (u32), and the `ImageName` buffer —
`none` models a null `Buffer` pointer, `some units` the NUL-terminated
UTF-16 code units behind a non-null pointer. -/
structure ProcRecord where
  nextEntryOffset : Nat
  uniqueProcessId : Nat
  sessionId : Nat
  imageName : Option (List Nat)
deriving DecidableEq, Repr

/-- The record an all-zero byte region decodes to: all integer fields 0 and
a null (0) `ImageName.Buffer` pointer. -/
def zeroRecord : ProcRecord := ⟨0, 0, 0, none⟩

/-- Size in bytes of `SYSTEM_PROCESS_INFORMATION` on x86-64 (0x100).  The
exact value does not matter to any result below beyond it being larger
than one byte: dereferencing `ptr as *mut SYSTEM_PROCESS_INFORMATION`
reads this many bytes starting at `ptr`. -/
def SYSTEM_PROCESS_INFORMATION_SIZE : Nat := 256

/-- The snapshot buffer (`sys_procs_buf : Vec<u8>`): its `Vec` length in
bytes, and the record obtained by dereferencing it at each byte offset. -/
structure Buf where
  len : Nat
  content : Nat → ProcRecord

/-- Rust `char::decode_utf16` collected into `Result<String, _>` (what
`PWSTR::to_string` does): units below 0xD800 or from 0xE000 are scalar
values; a high surrogate must be followed by a low surrogate, combining
into a supplementary scalar value; any unpaired surrogate yields an error
(`none`), on which the source's `.unwrap()` panics. -/
def utf16Decode? : List Nat → Option (List Nat)
  | [] => some []
  | u :: rest =>
    if u < 0xD800 || 0xE000 ≤ u then
      (utf16Decode? rest).map (fun tl => u :: tl)
    else if u < 0xDC00 then
      match rest with
      | [] => none
      | v :: rest2 =>
        if 0xDC00 ≤ v && v < 0xE000 then
          (utf16Decode? rest2).map
            (fun tl => (0x10000 + (u - 0xD800) * 0x400 + (v - 0xDC00)) :: tl)
        else none
    else none

/-- Lines 85-89 of `lib.rs`: the name the traversal compares — the
`"<null>"` placeholder when `ImageName.Buffer` is null, otherwise
`Buffer.to_string()` whose failure (`none`) makes `.unwrap()` panic. -/
def procNameOf (proc : ProcRecord) : Option (List Nat) :=
  match proc.imageName with
  | none => some NULL_PLACEHOLDER
  | some units => utf16Decode? units

/-- Lines 85-90 of `lib.rs` for a located parent record: the boolean the
function returns, `proc.SessionId == 0 && proc_name == "services.exe"`;
`none` models the `.unwrap()` panic on an undecodable name. -/
def classify (proc : ProcRecord) : Option Bool :=
  match procNameOf proc with
  | none => none
  | some name => some ((proc.sessionId == 0) && (name == SERVICES_EXE))

/-- Outcome of the traversal loop (lines 80-98). -/
inductive WalkOut where
  /-- The loop executed `return Ok(b)` upon finding the parent record. -/
  | found (b : Bool)
  /-- `proc.ImageName.Buffer.to_string().unwrap()` panicked. -/
  | panicked
  /-- The loop exited (zero next-offset, cursor at or past the buffer end,
  or record cap reached) and control fell through to `Ok(false)`. -/
  | fell
deriving DecidableEq, Repr

/-- The `while` loop of lines 82-98.  `off` is the cursor `ptr` as a byte
offset from the buffer start; `remaining` is `1024 - count`, so the source
condition `count < 1024` is `remaining > 0` and `count += 1` is the
structural decrease of `remaining`.  Returns the list of byte offsets at
which a record was dereferenced, paired with the loop's outcome. -/
def walkAux (buf : Buf) (ppid : Nat) : Nat → Nat → List Nat × WalkOut
  | _, 0 => ([], .fell)
  | off, remaining + 1 =>
    if off < buf.len then
      let proc := buf.content off
      if proc.uniqueProcessId == ppid then
        match classify proc with
        | some b => ([off], .found b)
        | none => ([off], .panicked)
      else if proc.nextEntryOffset == 0 then
        ([off], .fell)
      else
        let rest := walkAux buf ppid (off + proc.nextEntryOffset) remaining
        (off :: rest.1, rest.2)
    else ([], .fell)

/-- The traversal as entered at line 80: cursor at the buffer start,
`count = 0` (i.e. 1024 permitted visits). -/
def walk (buf : Buf) (ppid : Nat) : List Nat × WalkOut :=
  walkAux buf ppid 0 1024

/-- Response of one `NtQuerySystemInformation` call: the status (`Ok` with
the record content written into the caller's buffer, or an error status),
together with the value written to the `return_len` out-parameter. -/
structure SysResp where
  result : Except Nat (Nat → ProcRecord)
  retLen : Nat

/-- The OS oracle: the outcome of the `NtQueryInformationProcess` basic
information query (`Ok` carries `InheritedFromUniqueProcessId`), and the
response of the `i`-th `NtQuerySystemInformation` call as a function of
the buffer capacity passed to it. -/
structure OsModel where
  basicInfo : Except Nat Nat
  sysCall : Nat → Nat → SysResp

/-- Handle lifecycle events of `get_current_process_parent_id`. -/
inductive HEvent where
  /-- `GetCurrentProcess()` obtained the process handle. -/
  | opened
  /-- `CloseHandle(phdl)` released it. -/
  | closed
deriving DecidableEq, Repr

/-- Lines 27-45 of `lib.rs`: obtain the current-process handle, issue the
basic-information query, close the handle, then match on the query result.
Returns the handle-event trace alongside the `Result<usize>`. -/
def get_current_process_parent_id (os : OsModel) : List HEvent × Except Nat Nat :=
  let tr := [HEvent.opened, HEvent.closed]
  match os.basicInfo with
  | .ok ppid => (tr, .ok ppid)
  | .error e => (tr, .error e)

/-- Overall result of `is_running_as_windows_service`:
`Ok(bool)`, `Err(status)`, or a Rust panic. -/
inductive RunResult where
  /-- `Ok(b)` -/
  | ok (b : Bool)
  /-- `Err` carrying the underlying NTSTATUS. -/
  | err (status : Nat)
  /-- an `unwrap()` panic during traversal -/
  | panic
deriving DecidableEq, Repr

/-- Lines 75-100: the `return_len == 0` check followed by the traversal and
the final `Ok(false)` fall-through. -/
def afterLoop (ppid : Nat) (buf : Buf) (returnLen : Nat) : RunResult :=
  if returnLen == 0 then .err STATUS_BUFFER_TOO_SMALL
  else
    match (walk buf ppid).2 with
    | .found b => .ok b
    | .panicked => .panic
    | .fell => .ok false

/-- Lines 48-101 of `lib.rs`.  The `for _ in 0..2` loop is unrolled: the
first call goes out with the empty buffer (capacity 0); on
`STATUS_INFO_LENGTH_MISMATCH` the buffer is resized to the reported
`return_len` (zero-filled — a failed call populates nothing) and the call
is retried once; any other error returns immediately; a second
length-mismatch ends the loop with the buffer resized again but still
zero-filled.  Returns the list of buffer capacities passed to
`NtQuerySystemInformation` alongside the result. -/
def is_running_as_windows_service (os : OsModel) : List Nat × RunResult :=
  match (get_current_process_parent_id os).2 with
  | .error e => ([], .err e)
  | .ok ppid =>
    let r0 := os.sysCall 0 0
    match r0.result with
    | .ok content => ([0], afterLoop ppid ⟨0, content⟩ r0.retLen)
    | .error e0 =>
      if e0 == STATUS_INFO_LENGTH_MISMATCH then
        let len1 := r0.retLen
        let r1 := os.sysCall 1 len1
        match r1.result with
        | .ok content => ([0, len1], afterLoop ppid ⟨len1, content⟩ r1.retLen)
        | .error e1 =>
          if e1 == STATUS_INFO_LENGTH_MISMATCH then
            ([0, len1], afterLoop ppid ⟨r1.retLen, fun _ => zeroRecord⟩ r1.retLen)
          else ([0, len1], .err e1)
      else ([0], .err e0)

/-! ## Concrete oracles and buffers used as counterexamples and witnesses -/

/-- Parent resolution succeeds with ppid 5; the enumeration query has no
record with process id 5 (every record has id 1), required length 50. -/
def osAbsentParent : OsModel :=
  ⟨.ok 5, fun _ _ => ⟨.ok (fun _ => ⟨0, 1, 0, none⟩), 50⟩⟩

/-- Every enumeration call fails with `STATUS_INFO_LENGTH_MISMATCH` and
reports a required length of 4096: the retry bound is exceeded with a
nonzero reported length. -/
def osRetryExceeded : OsModel :=
  ⟨.ok 5, fun _ _ => ⟨.error STATUS_INFO_LENGTH_MISMATCH, 4096⟩⟩

/-- Every enumeration call fails with `STATUS_INFO_LENGTH_MISMATCH` and
reports a required length of zero. -/
def osZeroRequired : OsModel :=
  ⟨.ok 5, fun _ _ => ⟨.error STATUS_INFO_LENGTH_MISMATCH, 0⟩⟩

/-- The first enumeration call asks for 300 bytes; the retry succeeds with
a snapshot whose (matching) record carries an image name that is a lone
UTF-16 high surrogate — present but not decodable. -/
def osBadUtf16 : OsModel :=
  ⟨.ok 5, fun i _ =>
    if i == 0 then ⟨.error STATUS_INFO_LENGTH_MISMATCH, 300⟩
    else ⟨.ok (fun _ => ⟨0, 5, 0, some [0xD800]⟩), 300⟩⟩

/-- The first enumeration call reports success but leaves `return_len` at
zero. -/
def osOkZeroLen : OsModel :=
  ⟨.ok 5, fun _ _ => ⟨.ok (fun _ => zeroRecord), 0⟩⟩

/-- The basic-information query fails with status 42. -/
def osBasicFails : OsModel :=
  ⟨.error 42, fun _ _ => ⟨.ok (fun _ => zeroRecord), 1⟩⟩

/-- The first enumeration call fails with `STATUS_ACCESS_DENIED`
(0xC0000022), which is not the length-mismatch retry signal. -/
def osEnumDenied : OsModel :=
  ⟨.ok 5, fun _ _ => ⟨.error 0xC0000022, 0⟩⟩

/-- The first enumeration call reports length-mismatch needing 64 bytes;
the retry fails with `STATUS_ACCESS_DENIED`. -/
def osRetryDenied : OsModel :=
  ⟨.ok 5, fun i _ =>
    if i == 0 then ⟨.error STATUS_INFO_LENGTH_MISMATCH, 64⟩
    else ⟨.error 0xC0000022, 0⟩⟩

/-- A 50-byte buffer whose every offset decodes to the all-zero record:
smaller than one `SYSTEM_PROCESS_INFORMATION` (even the `UniqueProcessId`
field sits at struct offset 0x50 = 80, past these 50 bytes), yet its first
record is dereferenced. -/
def bufSmall : Buf := ⟨50, fun _ => zeroRecord⟩

/-- A 10-byte buffer holding a single non-matching record with a zero
next-offset. -/
def bufOneStop : Buf := ⟨10, fun _ => ⟨0, 3, 0, none⟩⟩

/-- A 50-byte buffer whose every record carries the (decodable) image name
`"services.exe"`. -/
def bufGoodNames : Buf := ⟨50, fun _ => ⟨0, 5, 0, some SERVICES_EXE⟩⟩

/-- A record located with session 0 and image name `"services.exe"`. -/
def recServices : ProcRecord := ⟨0, 7, 0, some SERVICES_EXE⟩

/-- The string-literal constants above are the scalar values of the Rust
literals they embed. -/
theorem strCodes_literals :
    SERVICES_EXE = strCodes "services.exe" ∧ NULL_PLACEHOLDER = strCodes "<null>" := by
  constructor <;> decide

/-- The parent-id query's result component is the oracle's basic-info
outcome on both paths of its final `match`. -/
theorem gcppi_snd (os : OsModel) :
    (get_current_process_parent_id os).2 = os.basicInfo := by
  unfold get_current_process_parent_id
  cases os.basicInfo <;> rfl

/-- The traversal dereferences at most `remaining` records. -/
theorem walkAux_length (buf : Buf) (ppid : Nat) :
    ∀ remaining off, (walkAux buf ppid off remaining).1.length ≤ remaining := by
  intro remaining
  induction remaining with
  | zero => intro off; simp [walkAux]
  | succ n ih =>
    intro off
    rw [walkAux]
    by_cases h1 : off < buf.len
    · simp only [h1, if_true]
      by_cases h2 : (buf.content off).uniqueProcessId == ppid
      · cases hc : classify (buf.content off) <;> simp [h2, hc]
      · by_cases h3 : (buf.content off).nextEntryOffset == 0
        · simp [h2, h3]
        · simp only [h2, h3, if_false, Bool.false_eq_true, List.length_cons]
          exact Nat.succ_le_succ (ih _)
    · simp [h1]

/-- Every offset the traversal dereferences lies strictly below the buffer
length: the cursor is compared against the buffer end before each
dereference. -/
theorem walkAux_mem_lt (buf : Buf) (ppid : Nat) :
    ∀ remaining off x, x ∈ (walkAux buf ppid off remaining).1 → x < buf.len := by
  intro remaining
  induction remaining with
  | zero => intro off x hx; simp [walkAux] at hx
  | succ n ih =>
    intro off x hx
    rw [walkAux] at hx
    by_cases h1 : off < buf.len
    · simp only [h1, if_true] at hx
      by_cases h2 : (buf.content off).uniqueProcessId == ppid
      · cases hc : classify (buf.content off) <;>
          simp [h2, hc] at hx <;> omega
      · by_cases h3 : (buf.content off).nextEntryOffset == 0
        · simp [h2, h3] at hx; omega
        · simp only [h2, h3, if_false, Bool.false_eq_true, List.mem_cons] at hx
          rcases hx with rfl | hx
          · exact h1
          · exact ih _ x hx
    · simp [h1] at hx

/-- When no offset of the buffer decodes to a record carrying the target
process id, the traversal falls through without finding anything. -/
theorem walkAux_nomatch (buf : Buf) (ppid : Nat)
    (hm : ∀ off, (buf.content off).uniqueProcessId ≠ ppid) :
    ∀ remaining off, (walkAux buf ppid off remaining).2 = .fell := by
  intro remaining
  induction remaining with
  | zero => intro off; simp [walkAux]
  | succ n ih =>
    intro off
    rw [walkAux]
    by_cases h1 : off < buf.len
    · have h2 : ((buf.content off).uniqueProcessId == ppid) = false := by
        simp [hm off]
      simp only [h1, if_true, h2, Bool.false_eq_true, if_false]
      by_cases h3 : (buf.content off).nextEntryOffset == 0
      · simp [h3]
      · simp only [h3, Bool.false_eq_true, if_false]
        exact ih _
    · simp [h1]

/-- When every in-bounds record whose image-name buffer is non-null holds
decodable UTF-16, the traversal cannot panic. -/
theorem walkAux_nopanic (buf : Buf) (ppid : Nat)
    (hdec : ∀ off u, off < buf.len → (buf.content off).imageName = some u →
      (utf16Decode? u).isSome) :
    ∀ remaining off, (walkAux buf ppid off remaining).2 ≠ .panicked := by
  intro remaining
  induction remaining with
  | zero => intro off; simp [walkAux]
  | succ n ih =>
    intro off
    rw [walkAux]
    by_cases h1 : off < buf.len
    · simp only [h1, if_true]
      by_cases h2 : (buf.content off).uniqueProcessId == ppid
      · cases hc : classify (buf.content off) with
        | none =>
          exfalso
          unfold classify at hc
          cases him : (buf.content off).imageName with
          | none => simp [procNameOf, him] at hc
          | some u =>
            have := hdec off u h1 him
            simp only [procNameOf, him] at hc
            cases hu : utf16Decode? u with
            | none => rw [hu] at this; simp at this
            | some s => rw [hu] at hc; simp at hc
        | some b => simp [h2, hc]
      · by_cases h3 : (buf.content off).nextEntryOffset == 0
        · simp [h2, h3]
        · simp only [h2, h3, Bool.false_eq_true, if_false]
          exact ih _
    · simp [h1]

/-- After a populated buffer whose records never carry the target id, the
post-loop phase yields `Ok(false)` as long as the reported length is
nonzero. -/
theorem afterLoop_nomatch (ppid : Nat) (buf : Buf) (retLen : Nat)
    (hr : retLen ≠ 0)
    (hm : ∀ off, (buf.content off).uniqueProcessId ≠ ppid) :
    afterLoop ppid buf retLen = .ok false := by
  unfold afterLoop
  have h0 : (retLen == 0) = false := by simp [hr]
  rw [h0]
  simp only [Bool.false_eq_true, if_false, walk]
  rw [walkAux_nomatch buf ppid hm]

/-- Traversing the zero-filled, never-populated buffer yields `Ok(false)`
whatever the target id: either the zero record matches id 0 and classifies
to `false` (null name becomes `"<null>"`), or the zero next-offset ends the
walk at once. -/
theorem afterLoop_zeroRecord (ppid : Nat) (n : Nat) (retLen : Nat)
    (hr : retLen ≠ 0) :
    afterLoop ppid ⟨n, fun _ => zeroRecord⟩ retLen = .ok false := by
  unfold afterLoop
  have h0 : (retLen == 0) = false := by simp [hr]
  rw [h0]
  simp only [Bool.false_eq_true, if_false, walk]
  rw [walkAux]
  by_cases h1 : 0 < n
  · simp only [h1, if_true]
    by_cases h2 : ppid = 0
    · subst h2; simp [zeroRecord, classify, procNameOf, NULL_PLACEHOLDER, SERVICES_EXE]
    · have hbeq : ((0 : Nat) == ppid) = false := by
        simp only [beq_eq_false_iff_ne]; omega
      simp [hbeq, zeroRecord]
  · simp [h1]

/-- C1: for a located parent record (one whose name extraction does not
panic, so `classify` yields a boolean), the detection result is `true` if
and only if the record's `SessionId` is 0 and its image name is exactly
the case-sensitive literal `"services.exe"`; any deviation — nonzero
session, a different name, or the `"<null>"` placeholder — yields
`false`. -/
theorem claim1_classify_iff (proc : ProcRecord) (b : Bool)
    (h : classify proc = some b) :
    b = true ↔ proc.sessionId = 0 ∧ procNameOf proc = some SERVICES_EXE := by
  unfold classify at h
  cases hn : procNameOf proc with
  | none => rw [hn] at h; simp at h
  | some name =>
    rw [hn] at h
    simp only [Option.some.injEq] at h
    subst h
    simp [Bool.and_eq_true, beq_iff_eq]

/-- C1 witness: the record with session 0 and name `"services.exe"`
classifies to `true`, instantiating the equivalence. -/
theorem claim1_witness :
    true = true ↔ recServices.sessionId = 0 ∧ procNameOf recServices = some SERVICES_EXE :=
  claim1_classify_iff recServices true (by decide)

/-- C2: when parent resolution succeeds and the enumeration calls either
succeed or fail only with the length-mismatch retry signal (always
reporting a nonzero required length), a snapshot containing no record with
the parent's id makes the function return `Ok(false)` — an absent parent
ends the walk as not-found, never as an error. -/
theorem claim2_absent_parent_ok_false (os : OsModel) (ppid : Nat)
    (hb : (get_current_process_parent_id os).2 = .ok ppid)
    (hlen : ∀ i cap, (os.sysCall i cap).retLen ≠ 0)
    (hst : ∀ i cap e, (os.sysCall i cap).result = .error e →
      e = STATUS_INFO_LENGTH_MISMATCH)
    (habs : ∀ i cap content off, (os.sysCall i cap).result = .ok content →
      (content off).uniqueProcessId ≠ ppid) :
    (is_running_as_windows_service os).2 = .ok false := by
  unfold is_running_as_windows_service
  rw [hb]
  cases hr0 : (os.sysCall 0 0).result with
  | ok content =>
    simp only [hr0]
    exact afterLoop_nomatch ppid ⟨0, content⟩ _ (hlen 0 0)
      (fun off => habs 0 0 content off hr0)
  | error e0 =>
    have he0 : e0 = STATUS_INFO_LENGTH_MISMATCH := hst 0 0 e0 hr0
    subst he0
    simp only [hr0, beq_self_eq_true, if_true]
    cases hr1 : (os.sysCall 1 (os.sysCall 0 0).retLen).result with
    | ok content =>
      simp only [hr1]
      exact afterLoop_nomatch ppid ⟨(os.sysCall 0 0).retLen, content⟩ _
        (hlen 1 _) (fun off => habs 1 _ content off hr1)
    | error e1 =>
      have he1 : e1 = STATUS_INFO_LENGTH_MISMATCH := hst 1 _ e1 hr1
      subst he1
      simp only [hr1, beq_self_eq_true, if_true]
      exact afterLoop_zeroRecord ppid _ _ (hlen 1 _)

/-- C2 witness: a concrete oracle whose snapshot holds only a record with
process id 1 while the resolved parent id is 5 yields `Ok(false)`. -/
theorem claim2_witness :
    (is_running_as_windows_service osAbsentParent).2 = .ok false :=
  claim2_absent_parent_ok_false osAbsentParent 5 rfl
    (fun _ _ => by show (50 : Nat) ≠ 0; decide)
    (fun _ _ _ h => Except.noConfusion h)
    (fun i cap content off h => by
      injection h with h2
      rw [← h2]
      show (1 : Nat) ≠ 5
      decide)

/-- C3: the resize-retry protocol — if the first enumeration call fails
with `STATUS_INFO_LENGTH_MISMATCH` reporting required size `N` (its
`return_len`), exactly one retry is issued, with a buffer of capacity
≥ `N` (in fact exactly `N`); if the first call succeeds immediately, no
second call is issued. -/
theorem claim3_resize_retry (os : OsModel) (ppid : Nat)
    (hb : (get_current_process_parent_id os).2 = .ok ppid) :
    ((os.sysCall 0 0).result = .error STATUS_INFO_LENGTH_MISMATCH →
      ∃ cap, (is_running_as_windows_service os).1 = [0, cap] ∧
        (os.sysCall 0 0).retLen ≤ cap)
    ∧ (∀ content, (os.sysCall 0 0).result = .ok content →
      (is_running_as_windows_service os).1 = [0]) := by
  constructor
  · intro h0
    refine ⟨(os.sysCall 0 0).retLen, ?_, le_refl _⟩
    unfold is_running_as_windows_service
    rw [hb]
    simp only [h0, beq_self_eq_true, if_true]
    cases hr1 : (os.sysCall 1 (os.sysCall 0 0).retLen).result with
    | ok content => simp [hr1]
    | error e1 =>
      by_cases he1 : e1 = STATUS_INFO_LENGTH_MISMATCH
      · subst he1; simp [hr1]
      · have : (e1 == STATUS_INFO_LENGTH_MISMATCH) = false := by
          simp [he1]
        simp [hr1, this]
  · intro content h0
    unfold is_running_as_windows_service
    rw [hb]
    simp [h0]

/-- C3 witness: with a first call failing length-mismatch needing 4096
bytes the call sequence is `[0, 4096]`; with an immediately succeeding
first call it is `[0]`. -/
theorem claim3_witness :
    (∃ cap, (is_running_as_windows_service osRetryExceeded).1 = [0, cap] ∧ 4096 ≤ cap)
    ∧ (is_running_as_windows_service osAbsentParent).1 = [0] :=
  ⟨(claim3_resize_retry osRetryExceeded 5 rfl).1 rfl,
   (claim3_resize_retry osAbsentParent 5 rfl).2 (fun _ => ⟨0, 1, 0, none⟩) rfl⟩

/-- C4 counterexample: when both enumeration calls fail with
`STATUS_INFO_LENGTH_MISMATCH` reporting a nonzero required length (4096),
the function does NOT fail with the buffer-too-small error the claim
demands — it returns the boolean `Ok(false)` after traversing the
zero-filled, never-populated resized buffer. -/
theorem claim4_counterexample :
    (is_running_as_windows_service osRetryExceeded).2 = .ok false ∧
    (is_running_as_windows_service osRetryExceeded).2 ≠ .err STATUS_BUFFER_TOO_SMALL := by
  constructor
  · decide
  · decide

/-- C4 amended: only a zero OS-reported required length at loop exit
produces the buffer-too-small `QueryError`; exceeding the retry bound with
a nonzero reported length does not fail (cf. the counterexample).  Here:
whenever parent resolution succeeds, every enumeration call reports
required length 0, and failures carry only the length-mismatch status, the
function fails with `STATUS_BUFFER_TOO_SMALL`. -/
theorem claim4_amended_zero_length_error (os : OsModel) (ppid : Nat)
    (hb : (get_current_process_parent_id os).2 = .ok ppid)
    (hlen : ∀ i cap, (os.sysCall i cap).retLen = 0)
    (hst : ∀ i cap e, (os.sysCall i cap).result = .error e →
      e = STATUS_INFO_LENGTH_MISMATCH) :
    (is_running_as_windows_service os).2 = .err STATUS_BUFFER_TOO_SMALL := by
  unfold is_running_as_windows_service
  rw [hb]
  cases hr0 : (os.sysCall 0 0).result with
  | ok content => simp [hr0, afterLoop, hlen 0 0]
  | error e0 =>
    have he0 : e0 = STATUS_INFO_LENGTH_MISMATCH := hst 0 0 e0 hr0
    subst he0
    simp only [hr0, beq_self_eq_true, if_true]
    cases hr1 : (os.sysCall 1 (os.sysCall 0 0).retLen).result with
    | ok content => simp [hr1, afterLoop, hlen 1 _]
    | error e1 =>
      have he1 : e1 = STATUS_INFO_LENGTH_MISMATCH := hst 1 _ e1 hr1
      subst he1
      simp [hr1, afterLoop, hlen 1 _]

/-- C4 amended witness: an oracle always failing with length-mismatch and
reported length 0 makes the function fail with the buffer-too-small
status. -/
theorem claim4_amended_witness :
    (is_running_as_windows_service osZeroRequired).2 = .err STATUS_BUFFER_TOO_SMALL :=
  claim4_amended_zero_length_error osZeroRequired 5 rfl (fun _ _ => rfl)
    (fun _ _ e h => by cases h; rfl)

/-- C5 counterexample: the traversal dereferences the record at offset 0 of
a 50-byte buffer although a `SYSTEM_PROCESS_INFORMATION` record spans 256
bytes (the `UniqueProcessId` field it reads sits at struct offset 80) —
the dereferenced record does NOT lie entirely within the buffer, refuting
the claim that no record bytes past the buffer end are ever read: the
bound checked before dereferencing is only `ptr < end`. -/
theorem claim5_counterexample :
    0 ∈ (walk bufSmall 5).1 ∧ ¬ (0 + SYSTEM_PROCESS_INFORMATION_SIZE ≤ bufSmall.len) := by
  constructor
  · decide
  · decide

/-- C5 amended: every record dereference *starts* strictly within the
buffer — the cursor is compared against the buffer end before each
dereference — but the record read may extend past the buffer end; whole-
record containment is not checked (cf. the counterexample). -/
theorem claim5_amended_start_in_bounds (buf : Buf) (ppid : Nat) (off : Nat)
    (h : off ∈ (walk buf ppid).1) : off < buf.len :=
  walkAux_mem_lt buf ppid 1024 0 off h

/-- C5 amended witness: offset 0 is dereferenced in the 50-byte buffer and
indeed starts within it. -/
theorem claim5_amended_witness : 0 ∈ (walk bufSmall 5).1 ∧ 0 < bufSmall.len :=
  ⟨by decide, claim5_amended_start_in_bounds bufSmall 5 0 (by decide)⟩

/-- C6 counterexample: traversal CAN fail — when the located record's
image-name buffer is non-null but holds a lone UTF-16 high surrogate,
`ImageName.Buffer.to_string().unwrap()` panics, refuting "traversal never
fails". -/
theorem claim6_counterexample :
    (is_running_as_windows_service osBadUtf16).2 = .panic := by
  decide

/-- C6 amended: a missing/unset image name is substituted with the literal
`"<null>"` placeholder rather than failing, and provided every present
image name in the buffer is decodable UTF-16, no traversal condition
(absent name, out-of-range offset, cap exceeded) produces an error or
panic; a present, undecodable name however panics (cf. the
counterexample). -/
theorem claim6_amended_no_panic_when_decodable (buf : Buf) (ppid : Nat)
    (hdec : ∀ off u, off < buf.len → (buf.content off).imageName = some u →
      (utf16Decode? u).isSome) :
    (∀ off, (buf.content off).imageName = none →
      procNameOf (buf.content off) = some NULL_PLACEHOLDER)
    ∧ (walk buf ppid).2 ≠ .panicked := by
  constructor
  · intro off h
    simp [procNameOf, h]
  · exact walkAux_nopanic buf ppid hdec 1024 0

/-- C6 amended witness: a buffer whose records all carry the decodable name
`"services.exe"` never panics during traversal. -/
theorem claim6_amended_witness : (walk bufGoodNames 5).2 ≠ WalkOut.panicked :=
  (claim6_amended_no_panic_when_decodable bufGoodNames 5
    (fun off u _ h => by
      simp only [bufGoodNames] at h
      injection h with h2
      rw [← h2]
      decide)).2

/-- C7: traversal terminates — at most 1024 records are ever dereferenced
(the defensive cap, combined with the buffer-end bound), and on a
well-formed chain a visited non-matching record with zero next-offset ends
the walk at once. -/
theorem claim7_traversal_bounded (buf : Buf) (ppid : Nat) :
    (walk buf ppid).1.length ≤ 1024 ∧
    (∀ off remaining, off < buf.len → (buf.content off).nextEntryOffset = 0 →
      ((buf.content off).uniqueProcessId == ppid) = false →
      walkAux buf ppid off (remaining + 1) = ([off], .fell)) := by
  constructor
  · exact walkAux_length buf ppid 1024 0
  · intro off remaining h1 h2 h3
    rw [walkAux]
    simp [h1, h2, h3]

/-- C7 witness: on the one-record buffer the walk visits at most 1024
records and stops immediately at the zero next-offset. -/
theorem claim7_witness :
    (walk bufOneStop 5).1.length ≤ 1024 ∧
    walkAux bufOneStop 5 0 1 = ([0], WalkOut.fell) :=
  ⟨(claim7_traversal_bounded bufOneStop 5).1,
   (claim7_traversal_bounded bufOneStop 5).2 0 0 (by decide) (by decide) (by decide)⟩

/-- C8: every OS-call failure other than the length-mismatch retry signal
is surfaced immediately as an error carrying the underlying status, with
no retry: a failing basic-information query propagates with no enumeration
call at all; a first enumeration failure with a non-length-mismatch status
propagates after that single call; a retry failure with such a status
propagates after the two calls. -/
theorem claim8_error_propagation (os : OsModel) :
    (∀ e, (get_current_process_parent_id os).2 = .error e →
      is_running_as_windows_service os = ([], .err e))
    ∧ (∀ ppid e, (get_current_process_parent_id os).2 = .ok ppid →
      (os.sysCall 0 0).result = .error e → e ≠ STATUS_INFO_LENGTH_MISMATCH →
      is_running_as_windows_service os = ([0], .err e))
    ∧ (∀ ppid e, (get_current_process_parent_id os).2 = .ok ppid →
      (os.sysCall 0 0).result = .error STATUS_INFO_LENGTH_MISMATCH →
      (os.sysCall 1 (os.sysCall 0 0).retLen).result = .error e →
      e ≠ STATUS_INFO_LENGTH_MISMATCH →
      is_running_as_windows_service os = ([0, (os.sysCall 0 0).retLen], .err e)) := by
  refine ⟨?_, ?_, ?_⟩
  · intro e hb
    unfold is_running_as_windows_service
    rw [hb]
  · intro ppid e hb h0 hne
    unfold is_running_as_windows_service
    rw [hb]
    have : (e == STATUS_INFO_LENGTH_MISMATCH) = false := by simp [hne]
    simp [h0, this]
  · intro ppid e hb h0 h1 hne
    unfold is_running_as_windows_service
    rw [hb]
    have : (e == STATUS_INFO_LENGTH_MISMATCH) = false := by simp [hne]
    simp [h0, h1, this]

/-- C8 witness: status 42 from the basic query propagates with no
enumeration call; `STATUS_ACCESS_DENIED` (0xC0000022) from the first or the
retried enumeration call propagates without further retry. -/
theorem claim8_witness :
    is_running_as_windows_service osBasicFails = ([], .err 42)
    ∧ is_running_as_windows_service osEnumDenied = ([0], .err 0xC0000022)
    ∧ is_running_as_windows_service osRetryDenied = ([0, 64], .err 0xC0000022) :=
  ⟨(claim8_error_propagation osBasicFails).1 42 rfl,
   (claim8_error_propagation osEnumDenied).2.1 5 0xC0000022 rfl rfl (by decide),
   (claim8_error_propagation osRetryDenied).2.2 5 0xC0000022 rfl rfl rfl (by decide)⟩

/-- C9: `get_current_process_parent_id` closes the process handle it
obtained on every exit path — `CloseHandle` runs before the result of the
query is even inspected, so the trace is open-then-close whether the query
succeeded or failed. -/
theorem claim9_handle_closed (os : OsModel) :
    (get_current_process_parent_id os).1 = [HEvent.opened, HEvent.closed] := by
  unfold get_current_process_parent_id
  cases os.basicInfo <;> rfl

/-- C10: the zero-returned-length check runs regardless of how the loop
exited — if the first enumeration call reports success while leaving
`return_len` at zero, the function fails with `STATUS_BUFFER_TOO_SMALL`
even though the OS reported success. -/
theorem claim10_success_zero_len_error (os : OsModel) (ppid : Nat)
    (content : Nat → ProcRecord)
    (hb : (get_current_process_parent_id os).2 = .ok ppid)
    (hres : (os.sysCall 0 0).result = .ok content)
    (hlen : (os.sysCall 0 0).retLen = 0) :
    (is_running_as_windows_service os).2 = .err STATUS_BUFFER_TOO_SMALL := by
  unfold is_running_as_windows_service
  rw [hb]
  simp [hres, hlen, afterLoop]

/-- C10 witness: an oracle whose first call succeeds with `return_len = 0`
makes the function fail with the buffer-too-small status. -/
theorem claim10_witness :
    (is_running_as_windows_service osOkZeroLen).2 = .err STATUS_BUFFER_TOO_SMALL :=
  claim10_success_zero_len_error osOkZeroLen 5 (fun _ => zeroRecord) rfl rfl rfl

end WinSvc
